import Mathlib

/-!
Verification of the fds_bvic transaction-velocity detection core.

The development shallowly embeds the data model and the operations of the
repository (Delta Merge Engine, Flag Reconciliation Engine, Velocity
Detector, write discipline) as executable Lean definitions, translated from
the Python source under `src/ibmb_script/`, and proves or refutes the
frozen specification claims about them.

Conventions of the embedding:
* a parquet/CSV record set is a `List Txn`;
* file contents are `Option (List Txn)` (`none` = the file is absent);
* string identifiers (`no_referensi`, `account_number`) are mapped to `Nat`;
* timestamps and amounts are `Int` (timestamps in minutes for the
  count-based detectors, whose marking span is hard-coded to 10 minutes in
  the source; in hours-compatible units for the value-sum detectors);
* each effectful stage returns the new file contents together with flags
  recording whether (and how) it wrote to disk.
-/

namespace FdsBvic

/-- TransactionRecord of the data model: one row of a store or batch.
Fields mirror the source columns `no_referensi` (unique reference id),
`account_number`, `transaction_date`, `transaction_amount`, and the single
flag column relevant to the rule under consideration (`flag_col`). -/
structure Txn where
  noReferensi : Nat
  accountNumber : Nat
  transactionDate : Int
  transactionAmount : Int
  flag : Nat
  deriving Repr, DecidableEq

/-- Reference ids of a record set, in order (the `no_referensi` column). -/
def refsOf (recs : List Txn) : List Nat :=
  recs.map (fun r => r.noReferensi)

/-- Anti-join of `daily` against `hist` on `no_referensi`: the records of
`daily` whose reference id does not occur in `hist`.  Source:
`daily_df.join(hist_df, on=no_referensi_col, how="anti")` in
`tf_online/historical/utils/historical.py` (and the qr variant). -/
def deltaNew (daily hist : List Txn) : List Txn :=
  daily.filter (fun r => decide (r.noReferensi ∉ refsOf hist))

/-- Anti-join of `hist` against `daily` on `no_referensi`: the records of
`hist` whose reference id does not occur in `daily`.  Source:
`hist_df.join(daily_df, on=no_referensi_col, how="anti")` in
`pembayaran/qr/historical/utils/historical.py`. -/
def deltaOld (hist daily : List Txn) : List Txn :=
  hist.filter (fun r => decide (r.noReferensi ∉ refsOf daily))

/-- Result of a Delta Merge run: the content of the historical store file
after the run, and whether the run wrote (rewrote) the store file. -/
structure MergeRun where
  store : List Txn
  wrote : Bool
  deriving Repr, DecidableEq

/-- Delta Merge Engine of `tf_online/historical/utils/historical.py`
(`update_historical`, merge part) and the identical
`ccw/utils/historical.py` variant.  `hist` is the content of the store file
(`none` when `hist_path` does not exist), `daily` the concatenated incoming
daily batch (with flag columns already backfilled).  When the store exists,
the source computes `delta_new` by anti-join, sets
`final_df = hist_df` if the delta is empty and
`final_df = concat([hist_df, delta_new])` otherwise, and then
unconditionally writes `final_df` to a temp file and renames it onto
`hist_path`.  When the store is absent it writes `daily` as the new store. -/
def updateHistoricalTf (hist : Option (List Txn)) (daily : List Txn) :
    MergeRun :=
  match hist with
  | some h =>
      let delta := deltaNew daily h
      let final := if delta.isEmpty then h else h ++ delta
      { store := final, wrote := true }
  | none => { store := daily, wrote := true }

/-- Outcome of a Flag Reconciliation run, mirroring the paths of
`update_flag_5min` in `tf_online/historical/utils/daily.py`:
`noDailyBatch` — the daily flag file is absent or empty (early return);
`missingHist` — the historical store file is absent (logged as an error);
`raisedColumnNotFound` — the lazily recorded flag-column cast of lines
70-73 references a column absent from the store file, so the first
`.collect()` of the poisoned frame (the pre-check, line 91) raises an
uncaught `ColumnNotFoundError` that propagates out of the function;
`skippedNoNew` — pre-check found no matching record with flag 0, no write;
`written` — matching unflagged records existed and the store was rewritten. -/
inductive FlagOutcome where
  | noDailyBatch
  | missingHist
  | raisedColumnNotFound
  | skippedNoNew
  | written
  deriving Repr, DecidableEq

/-- Result of a Flag Reconciliation run: store file content after the run,
the outcome path taken, and whether the store file was written. -/
structure FlagRun where
  store : Option (List Txn)
  outcome : FlagOutcome
  wrote : Bool
  deriving Repr, DecidableEq

/-- Pre-check of `update_flag_5min`: does the store contain a record whose
reference id is in the batch and whose target flag is 0?  Source:
`existing_df.filter(is_in(new_flag_refs) & (flag == 0)).len() > 0`. -/
def hasUnflagged (h : List Txn) (batchRefs : List Nat) : Bool :=
  h.any (fun r => decide (r.noReferensi ∈ batchRefs ∧ r.flag = 0))

/-- Flag update of `update_flag_5min`: for every record whose reference id
is in the batch set the target flag to 1, otherwise keep the old value.
Source: `when(is_in(new_flag_refs)).then(lit(1)).otherwise(col(flag))`. -/
def setFlagOne (h : List Txn) (batchRefs : List Nat) : List Txn :=
  h.map (fun r =>
    if r.noReferensi ∈ batchRefs then { r with flag := 1 } else r)

/-- Flag Reconciliation Engine: `update_flag_5min` of
`tf_online/historical/utils/daily.py` (the `update_flag_10min`,
`update_flag_50mio_e`, `update_flag_50mio` bodies are line-for-line
identical).  `histCols` is the column schema of the store file at
`hist_path`, `flagCol` the flag column name (a Python `str` per the
function's own annotation and the update-flag config pattern of the
historical models files), `hist` the record content of `hist_path`, and
`dailyBatch` the content of the daily flag file at `daily_path`.

After the daily-file and store-existence checks the source runs
`existing_df.with_columns([pl.col(c).cast(pl.Int8) for c in flag_col])`
(lines 70-73): the comprehension iterates the characters of the `str`
`flag_col`, lazily recording a cast of the single-character column
`String.singleton c` for each.  When any of those columns is absent from
the store file — always, for a realistic schema — the first `.collect()`
of the poisoned frame, the pre-check of line 91, raises an uncaught
`ColumnNotFoundError` (outcome `raisedColumnNotFound`): the function
terminates before the pre-check result, any flag update, or any write.
Only if every referenced column existed would the run reach the pre-check,
skip when no matching record has flag 0, and otherwise rewrite the store
with the flags OR-ed in via a temp file and an atomic rename. -/
def updateFlag5min (histCols : List String) (flagCol : String)
    (hist : Option (List Txn)) (dailyBatch : Option (List Txn)) : FlagRun :=
  match dailyBatch with
  | none => { store := hist, outcome := .noDailyBatch, wrote := false }
  | some batch =>
    if batch.isEmpty then
      { store := hist, outcome := .noDailyBatch, wrote := false }
    else
      match hist with
      | none => { store := none, outcome := .missingHist, wrote := false }
      | some h =>
        if flagCol.toList.all
            (fun c => decide (String.singleton c ∈ histCols)) then
          let newFlagRefs := refsOf batch
          if hasUnflagged h newFlagRefs then
            { store := some (setFlagOne h newFlagRefs),
              outcome := .written, wrote := true }
          else
            { store := some h, outcome := .skippedNoNew, wrote := false }
        else
          { store := some h, outcome := .raisedColumnNotFound,
            wrote := false }

/-- Rolling count of a record: the number of records of the same account
whose timestamp lies in the left-open window
`(r.transactionDate - window, r.transactionDate]`.  Source: the
`df.rolling(index_column=transaction_date_col, period=rolling_window,
group_by=account_number_col).agg(pl.len())` step of
`tf_online/tf_online_10min/utils/flag.py` and `ccw/utils/daily.py`
(polars rolling windows are right-closed, left-open). -/
def rollingCount (window : Int) (recs : List Txn) (r : Txn) : Nat :=
  (recs.filter (fun s => decide
    (s.accountNumber = r.accountNumber ∧
      r.transactionDate - window < s.transactionDate ∧
      s.transactionDate ≤ r.transactionDate))).length

/-- Burst points: the records whose rolling count meets or exceeds the
threshold.  Source: `df_rolling.filter(rolling_count >= threshold)`
(`burst_end`). -/
def burstPoints (window : Int) (threshold : Nat) (recs : List Txn) :
    List Txn :=
  recs.filter (fun r => decide (threshold ≤ rollingCount window recs r))

/-- Marking span of the count-based detectors.  The source hard-codes
`pl.duration(minutes=10)` for `t_start` regardless of the configured
rolling window; timestamps are counted in minutes in this embedding. -/
def markSpan : Int := 10

/-- Deduplication by reference id keeping the first occurrence, with the
set of already-seen reference ids as an accumulator.  Embeds polars
`.unique(subset=[no_referensi_col])` (which keeps one arbitrary row per
key; this embedding fixes the first). -/
def uniqueByRefAux : List Nat → List Txn → List Txn
  | _, [] => []
  | seen, r :: rs =>
    if r.noReferensi ∈ seen then uniqueByRefAux seen rs
    else r :: uniqueByRefAux (r.noReferensi :: seen) rs

/-- Deduplication of a record set by reference id (first occurrence kept). -/
def uniqueByRef (recs : List Txn) : List Txn :=
  uniqueByRefAux [] recs

/-- Count-based Velocity Detector calculation of
`flag_tf_online_10min` (`tf_online/tf_online_10min/utils/flag.py`, the
`df_rolling` / `burst_end` / join / filter / unique block) and of the
identical `flag_ccw` (`ccw/utils/daily.py`).  A record is kept when some
burst point of the same account has it inside the marking interval
`[burst.transactionDate - markSpan, burst.transactionDate]`; the result is
deduplicated by reference id and gets the flag column set to 1. -/
def flagCountCalc (window : Int) (threshold : Nat) (recs : List Txn) :
    List Txn :=
  (uniqueByRef (recs.filter (fun r =>
    (burstPoints window threshold recs).any (fun bp => decide
      (bp.accountNumber = r.accountNumber ∧
        bp.transactionDate - markSpan ≤ r.transactionDate ∧
        r.transactionDate ≤ bp.transactionDate))))).map
    (fun r => { r with flag := 1 })

/-- Rolling amount sum of a record: the sum of `transaction_amount` over
the records of the same account whose timestamp lies in the closed window
`[r.transactionDate - lookback, r.transactionDate]`.  Source: the
self-join plus filter
`(date_r >= date - duration(hours=rolling_window)) & (date_r <= date)`
and `pl.sum("transaction_amount_r")` of
`pembayaran/non_qr/non_qr_5mio/utils/flag.py` (steps 1 and 2). -/
def rollingSum (lookback : Int) (recs : List Txn) (r : Txn) : Int :=
  ((recs.filter (fun s => decide
    (s.accountNumber = r.accountNumber ∧
      r.transactionDate - lookback ≤ s.transactionDate ∧
      s.transactionDate ≤ r.transactionDate))).map
    (fun s => s.transactionAmount)).sum

/-- Rolling sum grouped by reference id: the source groups the self-joined
pairs by the left record's `no_referensi`, so the sum attributed to a
reference id aggregates the rolling sums of every record carrying that id
(they coincide with `rollingSum` when reference ids are unique). -/
def rollingSumByRef (lookback : Int) (recs : List Txn) (k : Nat) : Int :=
  ((recs.filter (fun r => decide (r.noReferensi = k))).map
    (fun r => rollingSum lookback recs r)).sum

/-- Value-sum Velocity Detector calculation of `flag_non_qr_5mio`
(`pembayaran/non_qr/non_qr_5mio/utils/flag.py`, steps 1-5; the e_wallet
variant is identical).  Keys `(account_number, no_referensi)` are
extracted from the rows whose grouped rolling sum meets the threshold, and
the store is semi-joined against those keys; kept records get the flag
column set to 1. -/
def flagValueCalc (lookback threshold : Int) (recs : List Txn) :
    List Txn :=
  (recs.filter (fun r =>
    (recs.filter (fun s => decide
        (threshold ≤ rollingSumByRef lookback recs s.noReferensi))).any
      (fun s => decide
        (s.accountNumber = r.accountNumber ∧
          s.noReferensi = r.noReferensi)))).map
    (fun r => { r with flag := 1 })

/-- File-system view of one detector flag stage: the content of the
Historical Store file at `hist_path` and of the daily flag batch file at
`output_path` (`none` = absent). -/
structure FlagStageFS where
  hist : Option (List Txn)
  output : Option (List Txn)
  deriving Repr, DecidableEq

/-- Count-based flag stage `flag_tf_online_10min`
(`tf_online/tf_online_10min/utils/flag.py`) as a file-system transformer.
When the store is absent the load fails and the stage terminates without
writing.  Otherwise the flagged subset (the blank schema-preserving frame
when it is empty) is written to a temp file and renamed onto
`output_path`; the store file itself is never written.  The run-time date
filter on the store (records newer than now minus `n_days`) is external
input; the embedding takes the already-filtered record set as the store
content. -/
def flagTfOnline10min (window : Int) (threshold : Nat)
    (fs : FlagStageFS) : FlagStageFS :=
  match fs.hist with
  | none => fs
  | some h =>
      { fs with output := some (flagCountCalc window threshold h) }

/-- Value-sum flag stage `flag_non_qr_5mio` of
`e_wallet/ewallet_5mio/utils/flag.py` as a file-system transformer.  When
the store is absent the load fails and the stage terminates without
writing.  Otherwise the source builds the flagged subset (or the blank
frame when it is empty), writes it to the temp file derived from
`hist_path`, and calls `os.replace(tmp_path, hist_path)` in both branches:
the rename target is the Historical Store itself, not `output_path`, so
the store file is overwritten with the daily flag batch. -/
def flagEwallet5mio (lookback threshold : Int)
    (fs : FlagStageFS) : FlagStageFS :=
  match fs.hist with
  | none => fs
  | some h =>
      { fs with hist := some (flagValueCalc lookback threshold h) }

/-- Destination kinds of a persistence call in the embedded stages. -/
inductive StorePath where
  | histPath
  | outputPath
  deriving Repr, DecidableEq

/-- One persistence call of a stage: which destination it targets and
whether it goes through the write-to-temp-then-atomic-rename discipline
(`viaTemp = true`: `write_parquet(tmp_path)` followed by
`os.replace(tmp_path, dest)`) or writes the destination directly
(`viaTemp = false`: `write_parquet(dest)`). -/
structure Persist where
  dest : StorePath
  viaTemp : Bool
  deriving Repr, DecidableEq

/-- Persistence calls performed by the tf_online Delta Merge
`update_historical` (`tf_online/historical/utils/historical.py`): both the
merge branch and the first-run branch write the store once, via the temp
file and `os.replace`. -/
def writesOfUpdateHistoricalTf (hist : Option (List Txn))
    (daily : List Txn) : List Persist :=
  match hist with
  | some _ => [{ dest := .histPath, viaTemp := true }]
  | none => [{ dest := .histPath, viaTemp := true }]

/-- Persistence calls performed by the qr Delta Merge `update_historical`
(`pembayaran/qr/historical/utils/historical.py`): when the store exists
and some delta is nonempty it calls `write_parquet(hist_path)` directly
inside the branch and a second time in the trailing `final_df` block; on
first run it writes the store directly once.  No temp file or rename is
used anywhere in that function. -/
def writesOfUpdateHistoricalQr (hist : Option (List Txn))
    (daily : List Txn) : List Persist :=
  match hist with
  | some h =>
      if (deltaNew daily h).isEmpty && (deltaOld h daily).isEmpty then []
      else [{ dest := .histPath, viaTemp := false },
            { dest := .histPath, viaTemp := false }]
  | none => [{ dest := .histPath, viaTemp := false }]

/-- Persistence calls performed by the Flag Reconciliation
`update_flag_5min` (`tf_online/historical/utils/daily.py`): only the
written branch persists (when it is reachable at all), via the temp file
and `os.replace` — it is the function's sole write call site. -/
def writesOfUpdateFlag5min (histCols : List String) (flagCol : String)
    (hist : Option (List Txn)) (dailyBatch : Option (List Txn)) :
    List Persist :=
  if (updateFlag5min histCols flagCol hist dailyBatch).wrote then
    [{ dest := .histPath, viaTemp := true }]
  else []

/-- Persistence calls performed by the ccw count-based detector `flag_ccw`
(`ccw/utils/daily.py`): when the flagged subset is nonempty it calls
`ccw_flag_only.collect().write_parquet(output_path)` directly — no temp
file, no rename; when it is empty nothing is written. -/
def writesOfFlagCcw (window : Int) (threshold : Nat)
    (recs : List Txn) : List Persist :=
  if (flagCountCalc window threshold recs).isEmpty then []
  else [{ dest := .outputPath, viaTemp := false }]

/-- State of one destination file together with its temp file, for the
crash model of the atomic-write discipline. -/
structure FileState where
  dest : Option (List Txn)
  tmp : Option (List Txn)
  deriving Repr, DecidableEq

/-- Write phase of the atomic discipline: the content is written completely
to the temp file; the destination is untouched. -/
def writeTmp (fs : FileState) (content : List Txn) : FileState :=
  { fs with tmp := some content }

/-- Rename phase: `os.replace(tmp_path, dest)` atomically installs the temp
file's content as the destination. -/
def renameTmp (fs : FileState) : FileState :=
  match fs.tmp with
  | some c => { dest := some c, tmp := none }
  | none => fs

/-- Complete atomic write: write the temp file, then rename it onto the
destination. -/
def atomicReplaceWrite (fs : FileState) (content : List Txn) : FileState :=
  renameTmp (writeTmp fs content)

/-! Helper lemmas shared by the claim theorems. -/

/-- Reference ids distribute over append. -/
lemma refsOf_append (l₁ l₂ : List Txn) :
    refsOf (l₁ ++ l₂) = refsOf l₁ ++ refsOf l₂ := by
  simp [refsOf]

/-- Column schema of a realistic tf_online historical store file: the
transaction columns plus the four full flag column names of the rule
family (the `DROP_COLS` list of the detectors names the same four).  No
single-character column exists in it. -/
def tfHistCols : List String :=
  ["no_referensi", "account_number", "transaction_date",
    "transaction_amount", "flag_5min", "flag_10min", "flag_50mio",
    "flag_50mio_early"]

end FdsBvic

namespace FdsBvic

/-- Claim C1 (code_bug evidence): the e_wallet value-sum flag stage,
evaluated at a store holding one record below the threshold, replaces the
Historical Store file content with the (empty) daily flag batch instead of
leaving it untouched — `os.replace(tmp_path, hist_path)` targets the store. -/
theorem flag_ewallet_overwrites_store :
    (flagEwallet5mio 24 50
        { hist := some [⟨1, 1, 0, 1, 0⟩], output := none }).hist = some []
      ∧ (some [] : Option (List Txn)) ≠ some [⟨1, 1, 0, 1, 0⟩] := by
  decide

/-- Claim C9 (counterexample): an incoming batch whose single record
shares its reference id with the store yields an empty anti-join delta,
yet the tf_online Delta Merge still performs the write and rename — the
store file is rewritten, contradicting the claimed no-op. -/
theorem merge_noop_counterexample :
    deltaNew [⟨1, 1, 0, 5, 0⟩] [⟨1, 1, 0, 5, 0⟩] = []
      ∧ (updateHistoricalTf (some [⟨1, 1, 0, 5, 0⟩])
          [⟨1, 1, 0, 5, 0⟩]).wrote = true := by
  decide

/-- Claim C9 (amended): when the anti-join yields no new records the
resulting store content equals the previous content, but the store file is
nevertheless rewritten (the write and rename are executed
unconditionally in the merge branch). -/
theorem merge_empty_delta_rewrites_same_content
    (h d : List Txn) (hempty : deltaNew d h = []) :
    (updateHistoricalTf (some h) d).store = h
      ∧ (updateHistoricalTf (some h) d).wrote = true := by
  simp [updateHistoricalTf, hempty]

/-- Claim C9 (witness for the amended theorem). -/
theorem merge_empty_delta_rewrites_same_content_witness :
    deltaNew [⟨1, 1, 0, 5, 0⟩] [⟨1, 1, 0, 5, 0⟩] = []
      ∧ ((updateHistoricalTf (some [⟨1, 1, 0, 5, 0⟩])
            [⟨1, 1, 0, 5, 0⟩]).store = [⟨1, 1, 0, 5, 0⟩]
        ∧ (updateHistoricalTf (some [⟨1, 1, 0, 5, 0⟩])
            [⟨1, 1, 0, 5, 0⟩]).wrote = true) :=
  ⟨by decide,
    merge_empty_delta_rewrites_same_content [⟨1, 1, 0, 5, 0⟩]
      [⟨1, 1, 0, 5, 0⟩] (by decide)⟩

/-- Claim C10 (code_bug evidence): a Flag Reconciliation run whose batch
reference id 9 exists nowhere in the store — so the pre-check could match
no record with flag 0 — does not report success: with the realistic store
schema and the `str` flag column name "flag_5min", the character-iterating
cast of lines 70-73 makes the pre-check collect raise
`ColumnNotFoundError`, so the run terminates on the raise path instead of
the modeled `skippedNoNew` no-op (it does perform no write and adds no
record, but it raises rather than reporting success). -/
theorem flag_reconciliation_no_match_raises :
    (updateFlag5min tfHistCols "flag_5min" (some [⟨1, 1, 0, 5, 0⟩])
        (some [⟨9, 1, 0, 5, 1⟩])).outcome = .raisedColumnNotFound
      ∧ (updateFlag5min tfHistCols "flag_5min" (some [⟨1, 1, 0, 5, 0⟩])
          (some [⟨9, 1, 0, 5, 1⟩])).outcome ≠ .skippedNoNew
      ∧ (updateFlag5min tfHistCols "flag_5min" (some [⟨1, 1, 0, 5, 0⟩])
          (some [⟨9, 1, 0, 5, 1⟩])).wrote = false
      ∧ (updateFlag5min tfHistCols "flag_5min" (some [⟨1, 1, 0, 5, 0⟩])
          (some [⟨9, 1, 0, 5, 1⟩])).store = some [⟨1, 1, 0, 5, 0⟩] := by
  decide

/-- Claim C6 (code_bug evidence): on a store holding one unflagged record
whose reference id is in the batch, the run does not end with that
record's target flag equal to 1 — with the realistic store schema and the
`str` flag column name "flag_5min", the character-iterating cast of lines
70-73 references nonexistent single-character columns, the pre-check
collect raises `ColumnNotFoundError`, and the function terminates with the
store unchanged (the matched record keeps flag 0) and no write. -/
theorem flag_reconciliation_never_sets_flag :
    (updateFlag5min tfHistCols "flag_5min" (some [⟨1, 1, 0, 5, 0⟩])
        (some [⟨1, 1, 0, 5, 1⟩])).outcome = .raisedColumnNotFound
      ∧ (updateFlag5min tfHistCols "flag_5min" (some [⟨1, 1, 0, 5, 0⟩])
          (some [⟨1, 1, 0, 5, 1⟩])).store = some [⟨1, 1, 0, 5, 0⟩]
      ∧ (updateFlag5min tfHistCols "flag_5min" (some [⟨1, 1, 0, 5, 0⟩])
          (some [⟨1, 1, 0, 5, 1⟩])).wrote = false := by
  decide

/-- Claim C7 (code_bug evidence): the claimed skip-path idempotence is
unreachable — with the realistic store schema and the `str` flag column
name "flag_5min", the first application of a batch matching an unflagged
record raises `ColumnNotFoundError` before any write (so no store ever
absorbs a batch), and a second application to the resulting (unchanged)
store raises again instead of taking the pre-check `skippedNoNew` path. -/
theorem flag_reconciliation_idempotence_unreachable :
    (updateFlag5min tfHistCols "flag_5min"
        (some [⟨1, 1, 0, 5, 0⟩, ⟨2, 1, 1, 5, 1⟩])
        (some [⟨1, 1, 0, 5, 1⟩])).outcome = .raisedColumnNotFound
      ∧ (updateFlag5min tfHistCols "flag_5min"
          (some [⟨1, 1, 0, 5, 0⟩, ⟨2, 1, 1, 5, 1⟩])
          (some [⟨1, 1, 0, 5, 1⟩])).wrote = false
      ∧ (updateFlag5min tfHistCols "flag_5min"
          ((updateFlag5min tfHistCols "flag_5min"
            (some [⟨1, 1, 0, 5, 0⟩, ⟨2, 1, 1, 5, 1⟩])
            (some [⟨1, 1, 0, 5, 1⟩])).store)
          (some [⟨1, 1, 0, 5, 1⟩])).outcome = .raisedColumnNotFound
      ∧ (updateFlag5min tfHistCols "flag_5min"
          ((updateFlag5min tfHistCols "flag_5min"
            (some [⟨1, 1, 0, 5, 0⟩, ⟨2, 1, 1, 5, 1⟩])
            (some [⟨1, 1, 0, 5, 1⟩])).store)
          (some [⟨1, 1, 0, 5, 1⟩])).outcome ≠ .skippedNoNew := by
  decide

/-- Filtering cannot introduce duplicate reference ids. -/
lemma refsOf_filter_nodup {l : List Txn} {p : Txn → Bool}
    (hnd : (refsOf l).Nodup) : (refsOf (l.filter p)).Nodup := by
  simp only [refsOf] at *
  exact hnd.sublist ((List.filter_sublist _).map _)

/-- Claim C3 (counterexample): an incoming batch carrying the same fresh
reference id twice survives the anti-join in both copies, so the store
after the tf_online merge holds two records with reference id 2. -/
theorem merge_uniqueness_counterexample :
    ¬ (refsOf (updateHistoricalTf (some [⟨1, 1, 0, 5, 0⟩])
        [⟨2, 1, 1, 5, 0⟩, ⟨2, 1, 2, 7, 0⟩]).store).Nodup := by
  decide

/-- Claim C3 (amended): provided the existing store and the incoming
daily batch each carry pairwise-distinct reference ids, the store
produced by the tf_online Delta Merge (incremental branch and first-run
branch alike) has pairwise-distinct reference ids. -/
theorem merge_unique_refs (h d : List Txn)
    (hh : (refsOf h).Nodup) (hd : (refsOf d).Nodup) :
    (refsOf (updateHistoricalTf (some h) d).store).Nodup
      ∧ (refsOf (updateHistoricalTf none d).store).Nodup := by
  refine ⟨?_, hd⟩
  have hstore : (updateHistoricalTf (some h) d).store
      = if (deltaNew d h).isEmpty then h else h ++ deltaNew d h := rfl
  rw [hstore]
  by_cases he : (deltaNew d h).isEmpty
  · simpa [he] using hh
  · rw [if_neg he, refsOf_append, List.nodup_append]
    refine ⟨hh, refsOf_filter_nodup hd, ?_⟩
    intro a hah hadelta
    simp only [refsOf, List.mem_map] at hadelta
    obtain ⟨r, hr, rfl⟩ := hadelta
    rw [deltaNew, List.mem_filter] at hr
    have hnot : r.noReferensi ∉ refsOf h := by simpa using hr.2
    exact hnot hah

/-- Claim C3 (witness for the amended theorem): duplicate-free store and
batch merge into a duplicate-free store. -/
theorem merge_unique_refs_witness :
    (refsOf [(⟨1, 1, 0, 5, 0⟩ : Txn)]).Nodup
      ∧ (refsOf [(⟨2, 1, 1, 5, 0⟩ : Txn), ⟨3, 1, 2, 7, 0⟩]).Nodup
      ∧ ((refsOf (updateHistoricalTf (some [⟨1, 1, 0, 5, 0⟩])
            [⟨2, 1, 1, 5, 0⟩, ⟨3, 1, 2, 7, 0⟩]).store).Nodup
        ∧ (refsOf (updateHistoricalTf none
            [⟨2, 1, 1, 5, 0⟩, ⟨3, 1, 2, 7, 0⟩]).store).Nodup) :=
  ⟨by decide, by decide,
    merge_unique_refs [⟨1, 1, 0, 5, 0⟩] [⟨2, 1, 1, 5, 0⟩, ⟨3, 1, 2, 7, 0⟩]
      (by decide) (by decide)⟩

/-- Merge equation of the tf_online Delta Merge: every historical record
appears unchanged (the store is a prefix of the result) and exactly the
incoming records with fresh reference ids are appended.  This documents
that the shared-reference-id defect is specific to the qr variant. -/
lemma merge_result_tf (h d : List Txn) :
    (updateHistoricalTf (some h) d).store
      = h ++ d.filter (fun r => decide (r.noReferensi ∉ refsOf h)) := by
  have hstore : (updateHistoricalTf (some h) d).store
      = if (deltaNew d h).isEmpty then h else h ++ deltaNew d h := rfl
  rw [hstore, deltaNew]
  by_cases he : (d.filter
      (fun r => decide (r.noReferensi ∉ refsOf h))).isEmpty
  · rw [if_pos he, List.isEmpty_iff.mp he, List.append_nil]
  · rw [if_neg he]

/-- When reference ids are unique in a record set, the records carrying a
given reference id of a member reduce to that member alone. -/
lemma filter_ref_eq_of_nodup {recs : List Txn} {r : Txn}
    (hnd : (refsOf recs).Nodup) (hr : r ∈ recs) :
    recs.filter (fun x => decide (x.noReferensi = r.noReferensi)) = [r] := by
  induction recs with
  | nil => cases hr
  | cons a l ih =>
      simp only [refsOf, List.map_cons, List.nodup_cons] at hnd
      rcases List.mem_cons.mp hr with rfl | hr'
      · have htail : l.filter
            (fun x => decide (x.noReferensi = r.noReferensi)) = [] := by
          rw [List.filter_eq_nil_iff]
          intro x hx
          simp only [decide_eq_true_eq]
          intro hxa
          exact hnd.1 (hxa ▸ List.mem_map_of_mem _ hx)
        simp [List.filter_cons, htail]
      · have hne : ¬ a.noReferensi = r.noReferensi := by
          intro he
          exact hnd.1 (he ▸ List.mem_map_of_mem _ hr')
        have ih' := ih (by simpa [refsOf] using hnd.2) hr'
        simp [List.filter_cons, hne, ih']

/-- Under unique reference ids the grouped rolling sum of a member's
reference id is its own rolling sum. -/
lemma rollingSumByRef_eq_rollingSum {lookback : Int} {recs : List Txn}
    {r : Txn} (hnd : (refsOf recs).Nodup) (hr : r ∈ recs) :
    rollingSumByRef lookback recs r.noReferensi
      = rollingSum lookback recs r := by
  rw [rollingSumByRef, filter_ref_eq_of_nodup hnd hr]
  simp

/-- Claim C4 (counterexample): account 1 makes two 30-unit transactions
one hour apart with lookback 24 and threshold 50.  The second record's
rolling window sums to 60 and triggers; the first record contributed to
that window (same account, timestamp inside it), yet the flagged output is
only the triggering record — the contributing record with reference id 1
is absent. -/
theorem flag_value_counterexample :
    (50 : Int) ≤ rollingSum 24 [⟨1, 1, 0, 30, 0⟩, ⟨2, 1, 1, 30, 0⟩]
        ⟨2, 1, 1, 30, 0⟩
      ∧ flagValueCalc 24 50 [⟨1, 1, 0, 30, 0⟩, ⟨2, 1, 1, 30, 0⟩]
          = [⟨2, 1, 1, 30, 1⟩]
      ∧ (⟨1, 1, 0, 30, 1⟩ : Txn) ∉
          flagValueCalc 24 50 [⟨1, 1, 0, 30, 0⟩, ⟨2, 1, 1, 30, 0⟩] := by
  decide

/-- Claim C4 (amended): on a store with unique reference ids the value-sum
detector flags exactly the records whose own rolling amount sum over
`[transactionDate - lookback, transactionDate]` meets or exceeds the
threshold; records that merely contributed to another record's triggering
window are not flagged. -/
theorem flag_value_triggering_only (lookback threshold : Int)
    (recs : List Txn) (hnd : (refsOf recs).Nodup) :
    flagValueCalc lookback threshold recs
      = (recs.filter
          (fun r => decide (threshold ≤ rollingSum lookback recs r))).map
          (fun r => { r with flag := 1 }) := by
  rw [flagValueCalc]
  congr 1
  apply List.filter_congr
  intro r hr
  rw [Bool.eq_iff_iff]
  simp only [List.any_eq_true, List.mem_filter, decide_eq_true_eq]
  constructor
  · rintro ⟨s, ⟨_, hsum⟩, _, href⟩
    rwa [href, rollingSumByRef_eq_rollingSum hnd hr] at hsum
  · intro ht
    exact ⟨r, ⟨hr, by rw [rollingSumByRef_eq_rollingSum hnd hr]; exact ht⟩,
      rfl, rfl⟩

/-- Claim C4 (witness for the amended theorem): the counterexample input,
where the flagged output is exactly the single triggering record. -/
theorem flag_value_triggering_only_witness :
    (refsOf [(⟨1, 1, 0, 30, 0⟩ : Txn), ⟨2, 1, 1, 30, 0⟩]).Nodup
      ∧ flagValueCalc 24 50 [⟨1, 1, 0, 30, 0⟩, ⟨2, 1, 1, 30, 0⟩]
        = (([(⟨1, 1, 0, 30, 0⟩ : Txn), ⟨2, 1, 1, 30, 0⟩].filter
            (fun r => decide ((50 : Int) ≤
              rollingSum 24 [⟨1, 1, 0, 30, 0⟩, ⟨2, 1, 1, 30, 0⟩] r))).map
            (fun r => { r with flag := 1 })) :=
  ⟨by decide,
    flag_value_triggering_only 24 50 [⟨1, 1, 0, 30, 0⟩, ⟨2, 1, 1, 30, 0⟩]
      (by decide)⟩

/-- Deduplication by reference id is the identity on a record set whose
reference ids are pairwise distinct and disjoint from the accumulator. -/
lemma uniqueByRefAux_eq_self {seen : List Nat} {l : List Txn}
    (hnd : (refsOf l).Nodup) (hdisj : ∀ r ∈ l, r.noReferensi ∉ seen) :
    uniqueByRefAux seen l = l := by
  induction l generalizing seen with
  | nil => rfl
  | cons a l ih =>
      simp only [refsOf, List.map_cons, List.nodup_cons] at hnd
      rw [uniqueByRefAux, if_neg (hdisj a (List.mem_cons_self a l))]
      congr 1
      refine ih (by simpa [refsOf] using hnd.2) fun r hr => ?_
      intro hmem
      rcases List.mem_cons.mp hmem with he | hseen
      · exact hnd.1 (he ▸ List.mem_map_of_mem _ hr)
      · exact hdisj r (List.mem_cons_of_mem a hr) hseen

/-- Deduplication by reference id is the identity on a duplicate-free
record set. -/
lemma uniqueByRef_eq_self {l : List Txn} (hnd : (refsOf l).Nodup) :
    uniqueByRef l = l :=
  uniqueByRefAux_eq_self hnd fun r _ => List.not_mem_nil r.noReferensi

/-- Setting the flag column leaves the reference ids unchanged. -/
lemma refsOf_map_setFlag (l : List Txn) :
    refsOf (l.map (fun r => { r with flag := 1 })) = refsOf l := by
  simp [refsOf]

/-- Claim C5: on a store with unique reference ids the count-based
detector's output contains each reference id at most once and holds
exactly the records (flag set to 1) whose account has a burst point — a
record whose rolling count over the left-open window meets or exceeds the
threshold — with the record's timestamp inside that burst point's marking
interval `[burst.transactionDate - markSpan, burst.transactionDate]`; in
particular the output is empty when no burst point exists. -/
theorem flag_count_characterization (window : Int) (threshold : Nat)
    (recs : List Txn) (hnd : (refsOf recs).Nodup) :
    (refsOf (flagCountCalc window threshold recs)).Nodup
      ∧ ∀ r : Txn, r ∈ flagCountCalc window threshold recs ↔
          ∃ r₀ ∈ recs, r = { r₀ with flag := 1 }
            ∧ ∃ bp ∈ recs, threshold ≤ rollingCount window recs bp
              ∧ bp.accountNumber = r₀.accountNumber
              ∧ bp.transactionDate - markSpan ≤ r₀.transactionDate
              ∧ r₀.transactionDate ≤ bp.transactionDate := by
  rw [flagCountCalc, uniqueByRef_eq_self (refsOf_filter_nodup hnd)]
  constructor
  · rw [refsOf_map_setFlag]
    exact refsOf_filter_nodup hnd
  · intro r
    simp only [List.mem_map, List.mem_filter, List.any_eq_true,
      burstPoints, decide_eq_true_eq]
    constructor
    · rintro ⟨r₀, ⟨hr₀, bp, ⟨hbp, hcnt⟩, hacct, hlo, hhi⟩, rfl⟩
      exact ⟨r₀, hr₀, rfl, bp, hbp, hcnt, hacct, hlo, hhi⟩
    · rintro ⟨r₀, hr₀, rfl, bp, hbp, hcnt, hacct, hlo, hhi⟩
      exact ⟨r₀, ⟨hr₀, bp, ⟨hbp, hcnt⟩, hacct, hlo, hhi⟩, rfl⟩

/-- Scenario A of the spec's testable properties: five transactions of one
account, one minute apart, all inside a ten-minute window. -/
def scenarioA : List Txn :=
  [⟨1, 1, 0, 1, 0⟩, ⟨2, 1, 1, 1, 0⟩, ⟨3, 1, 2, 1, 0⟩,
    ⟨4, 1, 3, 1, 0⟩, ⟨5, 1, 4, 1, 0⟩]

/-- Claim C5 (witness): the characterization instantiated at Scenario A
with window 10 and threshold 5. -/
theorem flag_count_characterization_witness :
    (refsOf scenarioA).Nodup
      ∧ ((refsOf (flagCountCalc 10 5 scenarioA)).Nodup
        ∧ ∀ r : Txn, r ∈ flagCountCalc 10 5 scenarioA ↔
            ∃ r₀ ∈ scenarioA, r = { r₀ with flag := 1 }
              ∧ ∃ bp ∈ scenarioA, 5 ≤ rollingCount 10 scenarioA bp
                ∧ bp.accountNumber = r₀.accountNumber
                ∧ bp.transactionDate - markSpan ≤ r₀.transactionDate
                ∧ r₀.transactionDate ≤ bp.transactionDate) :=
  ⟨by decide, flag_count_characterization 10 5 scenarioA (by decide)⟩

/-- Claim C8 (counterexample): two persistences that bypass the atomic
discipline entirely — the qr Delta Merge writes the store file directly
(on a store and batch with a nonempty delta), and the ccw detector writes
the daily flag batch file directly (on a store with one burst record). -/
theorem atomic_write_counterexample :
    ({ dest := .histPath, viaTemp := false } : Persist) ∈
        writesOfUpdateHistoricalQr (some [⟨1, 1, 0, 5, 0⟩])
          [⟨2, 1, 1, 5, 0⟩]
      ∧ ({ dest := .outputPath, viaTemp := false } : Persist) ∈
        writesOfFlagCcw 10 1 [⟨1, 1, 0, 5, 0⟩] := by
  decide

/-- Claim C8 (amended): the tf_online-family store persistences (Delta
Merge and Flag Reconciliation) all go through the
write-to-temp-then-rename discipline, and that discipline is crash safe —
a crash after the complete temp write but before the rename leaves the
destination exactly as before, while the completed write installs exactly
the new content; however, not every persistence in the repository uses it
(see the counterexample). -/
theorem atomic_write_discipline_amended
    (hist : Option (List Txn)) (daily : List Txn)
    (histCols : List String) (flagCol : String)
    (batch : Option (List Txn)) (fs : FileState) (content : List Txn) :
    (writesOfUpdateHistoricalTf hist daily).all (fun p => p.viaTemp) = true
      ∧ (writesOfUpdateFlag5min histCols flagCol hist batch).all
          (fun p => p.viaTemp) = true
      ∧ (writeTmp fs content).dest = fs.dest
      ∧ (atomicReplaceWrite fs content).dest = some content
      ∧ (atomicReplaceWrite fs content).tmp = none := by
  refine ⟨?_, ?_, rfl, rfl, rfl⟩
  · cases hist <;> rfl
  · rw [writesOfUpdateFlag5min]
    by_cases hw : (updateFlag5min histCols flagCol hist batch).wrote = true
      <;> simp [hw]

end FdsBvic
